import Mathlib

set_option linter.unusedVariables false

/-!
Verification of the task-lifecycle engine of the Personal AI Employee
repository.  The embedded code comprises: YAML-frontmatter task records
and their folder-based status buckets (task_processor.py), the ralph
loop retry governor and approval round-trip (ralph_loop.py), approval
request creation (create_approval.py), the trust-score update cycle
(trust_score_system.py), and the autonomy-level thresholds
(autonomy_level_manager.py).

Modelling conventions:
- Python floats are modelled as rationals; every comparison the code
  performs is against a short decimal constant, where float and
  rational arithmetic agree.
- The file system is an association list from (folder, file name)
  paths to file contents; Path.rename is the atomic primitive, with
  POSIX overwrite semantics when the destination exists.
- The PyYAML mapping loader is an explicit function parameter
  (yamlLoad : String -> Option YDict); returning none models a raised
  YAMLError, and the empty dictionary models the falsy results (None
  or an empty mapping).  The dumper is likewise a parameter where its
  output is never inspected.
- Timestamps are natural-number clocks; strftime renderings, which are
  injective at second resolution, are rendered through toString.
-/

/-- A scalar value stored in a YAML frontmatter dictionary. -/
inductive YVal where
  | b : Bool → YVal
  | s : String → YVal
  | q : ℚ → YVal
deriving DecidableEq, Repr

/-- Python truthiness of a YAML scalar: False, empty string and zero are
falsy, everything else is truthy. -/
def YVal.truthy : YVal → Bool
  | .b v => v
  | .s st => st ≠ ""
  | .q r => r ≠ 0

/-- YAML frontmatter metadata: an insertion-ordered dictionary, as the
PyYAML safe loader returns for a mapping. -/
abbrev YDict := List (String × YVal)

/-- Dictionary lookup: Python `key in d` / `d[key]` combined into an option. -/
def yget : YDict → String → Option YVal
  | [], _ => none
  | (k0, v0) :: rest, k => if k0 = k then some v0 else yget rest k

/-- Python `d.get(key, default)` followed by a truthiness test, as in
`if metadata.get('approval', False):`. -/
def ygetTruthy (d : YDict) (k : String) (dflt : Bool) : Bool :=
  match yget d k with
  | some v => v.truthy
  | none => dflt

/-- Python `d.get(key, default)` for a numeric field.  A stored boolean
counts as 0 or 1, as in Python where bool is a subtype of int.  A stored
string would make the subsequent Python comparison raise; such ill-typed
records are outside the embedding and the getter returns the default. -/
def ygetQ (d : YDict) (k : String) (dflt : ℚ) : ℚ :=
  match yget d k with
  | some (.q r) => r
  | some (.b v) => if v then 1 else 0
  | some (.s _) => dflt
  | none => dflt

/-- Python `d.get(key, default)` for a string field.  A stored non-string
compares unequal to every string literal in the source, which the empty
string sentinel reproduces (no compared literal is empty). -/
def ygetStr (d : YDict) (k : String) (dflt : String) : String :=
  match yget d k with
  | some (.s v) => v
  | some _ => ""
  | none => dflt

/-- Python `d[key] = value`: update in place if the key exists, else append,
preserving insertion order. -/
def yset : YDict → String → YVal → YDict
  | [], k, v => [(k, v)]
  | (k0, v0) :: rest, k, v =>
      if k0 = k then (k0, v) :: rest else (k0, v0) :: yset rest k v

/-- If the first list is a prefix of the second, return the remainder. -/
def dropPfx : List Char → List Char → Option (List Char)
  | [], l => some l
  | _, [] => none
  | s :: ss, c :: cs => if c = s then dropPfx ss cs else none

/-- Fuelled left-to-right non-overlapping split on a separator, the fuel
bounding the scan length; with fuel at least the input length this is the
split of Python str.split. -/
def splitSepFuel (sep : List Char) : ℕ → List Char → List (List Char)
  | 0, l => [l]
  | fuel + 1, [] => [[]]
  | fuel + 1, c :: cs =>
    match dropPfx sep (c :: cs) with
    | some rest => [] :: splitSepFuel sep fuel rest
    | none =>
      match splitSepFuel sep fuel cs with
      | [] => [[c]]
      | h :: t => (c :: h) :: t

/-- Python str.split(sep) for a non-empty separator. -/
def pySplit (sep s : String) : List String :=
  (splitSepFuel sep.data s.data.length s.data).map String.mk

/-- Python str.startswith(pre). -/
def pyStartsWith (s pre : String) : Bool :=
  (dropPfx pre.data s.data).isSome

/-- An ASCII whitespace character, as stripped by Python str.strip on the
record bodies in play. -/
def isSpaceChar (c : Char) : Bool :=
  c = ' ' ∨ c = '\n' ∨ c = '\t' ∨ c = '\r'

/-- Python str.strip(): drop whitespace from both ends. -/
def pyStrip (s : String) : String :=
  String.mk (((s.data.dropWhile isSpaceChar).reverse.dropWhile isSpaceChar).reverse)

/-- The shared frontmatter splitter of task_processor.parse_yaml_frontmatter
and RalphLoop.parse_yaml_frontmatter: `content.split("---", 2)` keeps the
text before the first separator, the text between the first two, and the
untouched remainder (maxsplit 2 is realised as the full split with the
tail re-joined); the YAML block is handed to the loader and a failure (or
a missing pair of separators) yields the empty dictionary together with
the original content. -/
def parse_yaml_frontmatter (yamlLoad : String → Option YDict) (content : String) :
    YDict × String :=
  if pyStartsWith content "---" then
    let parts := pySplit "---" content
    if 3 ≤ parts.length then
      let yamlContent := parts.getD 1 ""
      let body := pyStrip (String.intercalate "---" (parts.drop 2))
      match yamlLoad yamlContent with
      | some d => (d, body)
      | none => ([], content)
    else ([], content)
  else ([], content)

/-- task_processor.get_task_status: the status field if the parsed metadata
is truthy and carries one, else "unknown".  A non-string status value is
returned raw in Python and then compares unequal to every status literal;
the empty-string sentinel reproduces that branching. -/
def get_task_status (yamlLoad : String → Option YDict) (content : String) : String :=
  match yget (parse_yaml_frontmatter yamlLoad content).1 "status" with
  | some (.s v) => v
  | some _ => ""
  | none => "unknown"

/-- task_processor.get_task_approval_status: the approval field if present,
else False; the caller tests it for truthiness. -/
def get_task_approval_status (yamlLoad : String → Option YDict) (content : String) : Bool :=
  match yget (parse_yaml_frontmatter yamlLoad content).1 "approval" with
  | some v => v.truthy
  | none => false

/-- task_processor.update_task_status: re-serialise the record with the new
status and a fresh last_updated stamp; if the parsed metadata is falsy the
function logs and returns False without writing, modelled as none. -/
def update_task_status (yamlLoad : String → Option YDict) (yamlDump : YDict → String)
    (nowStr : String) (content newStatus : String) : Option String :=
  let parsed := parse_yaml_frontmatter yamlLoad content
  if parsed.1 = [] then none
  else
    let d := yset (yset parsed.1 "status" (.s newStatus)) "last_updated" (.s nowStr)
    some ("---\n" ++ yamlDump d ++ "---\n" ++ parsed.2)

/-- RalphLoop.update_task_metadata: apply a dictionary of updates in order,
stamp last_updated, and re-serialise; falsy metadata means no write,
modelled as none. -/
def update_task_metadata (yamlLoad : String → Option YDict) (yamlDump : YDict → String)
    (nowStr : String) (content : String) (updates : YDict) : Option String :=
  let parsed := parse_yaml_frontmatter yamlLoad content
  if parsed.1 = [] then none
  else
    let d := updates.foldl (fun acc kv => yset acc kv.1 kv.2) parsed.1
    let d := yset d "last_updated" (.s nowStr)
    some ("---\n" ++ yamlDump d ++ "---\n" ++ parsed.2)

/-- A file path: (containing folder, file name).  The vault folders of the
source are flat, one bucket per lifecycle state. -/
abbrev FPath := String × String

/-- The vault file system: an association list from paths to file contents. -/
abbrev FileSys := List (FPath × String)

/-- Content of the file at a path, if present. -/
def fsLookup : FileSys → FPath → Option String
  | [], _ => none
  | (p0, c0) :: rest, p => if p0 = p then some c0 else fsLookup rest p

/-- Remove the file at a path. -/
def fsErase : FileSys → FPath → FileSys
  | [], _ => []
  | e :: rest, p => if e.1 = p then fsErase rest p else e :: fsErase rest p

/-- Write (create or replace) the file at a path. -/
def fsWrite (fs : FileSys) (p : FPath) (c : String) : FileSys :=
  (p, c) :: fsErase fs p

/-- Path.rename as the atomic file-system primitive: succeeds exactly when
the source exists, replacing any file already at the destination (POSIX
overwrite semantics); a missing source raises, which the callers catch and
convert to False. -/
def fsRename (fs : FileSys) (src dst : FPath) : Bool × FileSys :=
  match fsLookup fs src with
  | some c => (true, fsWrite (fsErase fs src) dst c)
  | none => (false, fs)

/-- Path.stem and Path.suffix: split a file name at its last dot, the
suffix keeping the dot.  Leading-dot special cases of pathlib are not
exercised by the vault naming scheme. -/
def splitStemSuffix (name : String) : String × String :=
  match pySplit "." name with
  | [] => (name, "")
  | [_] => (name, "")
  | parts => (String.intercalate "." parts.dropLast, "." ++ parts.getLastD "")

/-- Folder-name constants of task_processor.py and ralph_loop.py. -/
def INCOMING_TASKS_FOLDER : String := "01_Incoming_Tasks"

def IN_PROGRESS_TASKS_FOLDER : String := "02_In_Progress_Tasks"

def COMPLETED_TASKS_FOLDER : String := "03_Completed_Tasks"

def APPROVAL_WORKFLOWS_FOLDER : String := "04_Approval_Workflows"

def FAILED_TASKS_FOLDER : String := "05_Failed_Tasks"

/-- The shared move_task_to_folder of task_processor.py and ralph_loop.py:
if the destination folder already holds a file of the same name, retarget
to stem + strftime stamp + suffix (without re-checking that this new name
is free), then rename.  The clock is the natural number `now`, rendered
injectively. -/
def move_task_to_folder (now : ℕ) (fs : FileSys) (src : FPath) (destFolder : String) :
    Bool × FileSys :=
  let name := src.2
  let dest0 : FPath := (destFolder, name)
  let dest : FPath :=
    if (fsLookup fs dest0).isSome then
      let sp := splitStemSuffix name
      (destFolder, sp.1 ++ "_" ++ toString now ++ sp.2)
    else dest0
  fsRename fs src dest

/-- RalphLoop.max_retries, set in the constructor. -/
def max_retries : ℕ := 10

/-- The decision core of RalphLoop.process_task (the code after the
metadata refresh by apply_intelligence_to_task): the approval gate first,
then the retry ceiling, then the per-type confidence rules.  The argument
is the refreshed metadata dictionary; the returned string is the new
status, with the moves to the approval and failed buckets performed inside
the source function reflected in ralph_incoming_step below. -/
def process_task (d : YDict) : String :=
  if ygetTruthy d "approval" false then "awaiting_approval"
  else if (max_retries : ℚ) ≤ ygetQ d "retry_count" 0 then "failed"
  else
    let taskType := ygetStr d "type" "generic"
    let conf := ygetQ d "confidence_score" 0.5
    if taskType = "file_arrival" then
      if 0.7 < conf then "completed" else "in_progress"
    else if taskType = "email" then
      let prio := ygetStr d "priority" "normal"
      let risk := ygetQ d "risk_factor" 0.0
      if prio = "high" ∨ prio = "critical" then
        if 0.5 < risk then "pending_review" else "in_progress"
      else
        if 0.6 < conf then "completed" else "in_progress"
    else
      if 0.8 < conf then "completed"
      else if 0.5 < conf then "in_progress"
      else "pending_review"

/-- Externally observable outcome of one cycle step on one task file. -/
inductive CycleEffect where
  | movedTo (folder : String) (statusSet : Option String)
  | statusSet (status : String)
  | leftInPlace
deriving DecidableEq, Repr

/-- The incoming-tasks loop body of RalphLoop.run_autonomous_cycle: tasks
whose status reads pending_review or needs_action are decided by
process_task and then moved (and re-stamped) according to the decision;
any other status is skipped. -/
def ralph_incoming_step (d : YDict) : CycleEffect :=
  let status := ygetStr d "status" "pending_review"
  if status = "pending_review" ∨ status = "needs_action" then
    let newStatus := process_task d
    if newStatus = "awaiting_approval" then
      .movedTo APPROVAL_WORKFLOWS_FOLDER none
    else if newStatus = "in_progress" then
      .movedTo IN_PROGRESS_TASKS_FOLDER (some "in_progress")
    else if newStatus = "completed" then
      .movedTo COMPLETED_TASKS_FOLDER (some "completed")
    else if newStatus = "failed" then
      .movedTo FAILED_TASKS_FOLDER none
    else
      .statusSet newStatus
  else .leftInPlace

/-- Outcome of one approval-workflow step on one task file. -/
inductive ApprovalEffect where
  | movedTo (folder : String) (statusSet : String)
  | noAction
deriving DecidableEq, Repr

/-- The approval-workflows loop body of RalphLoop.run_autonomous_cycle: an
approved task is routed to the completed bucket when its recorded
original_status is completed, and to the in-progress bucket (with status
in_progress) for every other original_status, the default being
in_progress; an unapproved task is left untouched. -/
def ralph_approval_step (d : YDict) : ApprovalEffect :=
  if ygetTruthy d "approved" false then
    if ygetStr d "original_status" "in_progress" = "completed" then
      .movedTo COMPLETED_TASKS_FOLDER "completed"
    else
      .movedTo IN_PROGRESS_TASKS_FOLDER "in_progress"
  else .noAction

/-- The loop body of task_processor.process_incoming_tasks, as a function
of the status string and the approval flag read from the file. -/
inductive TPEffect where
  | movedTo (folder : String)
  | leftPendingReview
  | leftUnknown
deriving DecidableEq, Repr

/-- task_processor.process_incoming_tasks, per task file: approval first,
then routing by status string; an unrecognised status leaves the file in
the incoming folder with a log line. -/
def tp_incoming_step (status : String) (requiresApproval : Bool) : TPEffect :=
  if requiresApproval then .movedTo APPROVAL_WORKFLOWS_FOLDER
  else if status = "in_progress" then .movedTo IN_PROGRESS_TASKS_FOLDER
  else if status = "completed" then .movedTo COMPLETED_TASKS_FOLDER
  else if status = "pending_review" then .leftPendingReview
  else .leftUnknown

/-- task_processor.process_incoming_tasks applied to a file content. -/
def tp_incoming_step_content (yamlLoad : String → Option YDict) (content : String) :
    TPEffect :=
  tp_incoming_step (get_task_status yamlLoad content)
    (get_task_approval_status yamlLoad content)

/-- The loop body of task_processor.process_approval_workflows: a task
whose metadata is truthy and approved is moved to the in-progress bucket
and re-stamped in_progress; otherwise it merely logs that it is awaiting
approval. -/
def tp_approval_step (d : YDict) : ApprovalEffect :=
  if d ≠ [] ∧ ygetTruthy d "approved" false then
    .movedTo IN_PROGRESS_TASKS_FOLDER "in_progress"
  else .noAction

/-- The metadata dictionary written by create_approval.create_approval_request:
created and expires are clock values in seconds, expires being
created + 24 hours; the record starts in status pending. -/
def create_approval_metadata (approvalType approvalId : String) (now : ℕ) : YDict :=
  [("type", .s "approval_request"),
   ("action", .s approvalType),
   ("created", .q (now : ℚ)),
   ("expires", .q ((now + 24 * 3600 : ℕ) : ℚ)),
   ("status", .s "pending"),
   ("approval_id", .s approvalId)]

/-- TrustScoreSystem.calculate_task_success_rate: every file in the
completed bucket counts as a success, every file in the failed bucket as a
failure; with no files at all the rate defaults to 0.8. -/
def calculate_task_success_rate (completedCount failedCount : ℕ) : ℚ :=
  let total := completedCount + failedCount
  if total = 0 then 0.8 else (completedCount : ℚ) / (total : ℚ)

/-- TrustScoreSystem.calculate_approval_success_rate: one boolean per file
in the approval bucket, true when its metadata parsed and carried a truthy
approved flag; with no approval files the rate defaults to 1.0. -/
def calculate_approval_success_rate (approvalFiles : List Bool) : ℚ :=
  if approvalFiles.length = 0 then 1.0
  else (approvalFiles.count true : ℚ) / (approvalFiles.length : ℚ)

/-- TrustScoreSystem.calculate_retry_frequency: average retry-log entries
per distinct task, scaled by 5 and capped at 1; with no retry data the
frequency defaults to 0.1. -/
def calculate_retry_frequency (totalRetryAttempts taskCount : ℕ) : ℚ :=
  if taskCount = 0 then 0.1
  else min 1.0 (((totalRetryAttempts : ℚ) / (taskCount : ℚ)) / 5.0)

/-- TrustScoreSystem.update_trust_score: weighted combination of the three
rates (0.5, 0.2, 0.3 with the retry frequency inverted), clamped to
[min_trust_score, max_trust_score] = [0, 1], then exponentially smoothed
against the current score with smoothing factor 0.3. -/
def update_trust_score (current : ℚ) (completedCount failedCount : ℕ)
    (approvalFiles : List Bool) (totalRetryAttempts taskCount : ℕ) : ℚ :=
  let success_rate := calculate_task_success_rate completedCount failedCount
  let approval_rate := calculate_approval_success_rate approvalFiles
  let retry_frequency := calculate_retry_frequency totalRetryAttempts taskCount
  let new_trust_score :=
    success_rate * 0.5 + approval_rate * 0.2 + (1.0 - retry_frequency) * 0.3
  let clamped := max 0 (min 1 new_trust_score)
  current * (1 - 0.3) + clamped * 0.3

/-- AutonomyLevelManager.get_autonomy_level: the fixed thresholds mapping a
trust score to the ordinal levels 4 = Self-direct, 3 = Execute,
2 = Recommend, 1 = Observe only. -/
def get_autonomy_level (trust_score : ℚ) : ℕ :=
  if 0.85 ≤ trust_score then 4
  else if 0.7 ≤ trust_score then 3
  else if 0.5 ≤ trust_score then 2
  else 1

/-- A sequence of rename attempts on one source path: each racing worker,
after its read-only destination-name choice, performs the single mutating
step of move_task_to_folder, the atomic rename.  The list order is the
(arbitrary) order in which the renames hit the file system. -/
def run_renames (fs : FileSys) (src : FPath) : List FPath → List Bool × FileSys
  | [] => ([], fs)
  | d :: rest =>
      let r := fsRename fs src d
      let rec' := run_renames r.2 src rest
      (r.1 :: rec'.1, rec'.2)

/-- File-system wrapper of task_processor.update_task_status: a read
failure or falsy metadata returns False with no write; success writes the
re-serialised record back in place. -/
def update_task_status_fs (yamlLoad : String → Option YDict) (yamlDump : YDict → String)
    (nowStr : String) (fs : FileSys) (p : FPath) (newStatus : String) : Bool × FileSys :=
  match fsLookup fs p with
  | none => (false, fs)
  | some content =>
    match update_task_status yamlLoad yamlDump nowStr content newStatus with
    | none => (false, fs)
    | some c2 => (true, fsWrite fs p c2)

/-- Looking up a key different from the one just set reads the old value. -/
theorem yget_yset_ne (d : YDict) (k k0 : String) (v : YVal) (h : k ≠ k0) :
    yget (yset d k v) k0 = yget d k0 := by
  induction d with
  | nil => simp [yset, yget, h]
  | cons e rest ih =>
    obtain ⟨ek, ev⟩ := e
    by_cases hek : ek = k
    · subst hek
      simp [yset, yget, h]
    · simp [yset, yget, hek, ih]

/-- Erasing a path removes it. -/
theorem fsLookup_fsErase_self (fs : FileSys) (p : FPath) :
    fsLookup (fsErase fs p) p = none := by
  induction fs with
  | nil => rfl
  | cons e rest ih =>
    by_cases he : e.1 = p
    · simp [fsErase, he, ih]
    · simp [fsErase, fsLookup, he, ih]

/-- Erasing one path leaves every other path unchanged. -/
theorem fsLookup_fsErase_ne (fs : FileSys) (p q : FPath) (h : q ≠ p) :
    fsLookup (fsErase fs p) q = fsLookup fs q := by
  have hpq : p ≠ q := Ne.symm h
  induction fs with
  | nil => rfl
  | cons e rest ih =>
    by_cases he : e.1 = p
    · simp [fsErase, fsLookup, he, hpq, ih]
    · by_cases heq : e.1 = q
      · simp [fsErase, fsLookup, he, heq, h]
      · simp [fsErase, fsLookup, he, heq, ih]

/-- A write is visible at its own path. -/
theorem fsLookup_fsWrite_self (fs : FileSys) (p : FPath) (c : String) :
    fsLookup (fsWrite fs p c) p = some c := by
  simp [fsWrite, fsLookup]

/-- A write leaves every other path unchanged. -/
theorem fsLookup_fsWrite_ne (fs : FileSys) (p q : FPath) (c : String) (h : q ≠ p) :
    fsLookup (fsWrite fs p c) q = fsLookup fs q := by
  have hpq : p ≠ q := fun hp => h hp.symm
  simp [fsWrite, fsLookup, hpq, fsLookup_fsErase_ne fs p q h]

/-- Once the source path is gone, every further rename attempt on it fails
and the file system no longer changes. -/
theorem run_renames_of_missing (fs : FileSys) (src : FPath) (dests : List FPath)
    (h : fsLookup fs src = none) :
    (run_renames fs src dests).1.count true = 0 := by
  induction dests generalizing fs with
  | nil => simp [run_renames]
  | cons d rest ih =>
    simp only [run_renames, fsRename, h]
    simpa using ih fs h

/-- C2: when N workers race to move the same task file in one cycle, the
only mutating step of move_task_to_folder is the final atomic rename (the
preceding destination-name choice only reads the file system), so any
interleaving amounts to a list of chosen destination paths, each inside a
status bucket distinct from the source folder, followed by the renames in
some order.  Exactly one of the racing claims succeeds; the others see the
source gone, return False, and skip the task. -/
theorem c2_exactly_one_claim_succeeds (fs : FileSys) (src : FPath) (c : String)
    (dests : List FPath)
    (hsrc : fsLookup fs src = some c)
    (hne : dests ≠ [])
    (hfolders : ∀ d ∈ dests, d.1 ≠ src.1) :
    ((run_renames fs src dests).1.count true) = 1 := by
  cases dests with
  | nil => exact absurd rfl hne
  | cons d rest =>
    have hd : d ≠ src := by
      intro hEq
      exact hfolders d (List.mem_cons_self d rest) (by rw [hEq])
    simp only [run_renames, fsRename, hsrc]
    have hgone : fsLookup (fsWrite (fsErase fs src) d c) src = none := by
      rw [fsLookup_fsWrite_ne _ _ _ _ (Ne.symm hd)]
      exact fsLookup_fsErase_self fs src
    have hrest :
        ((run_renames (fsWrite (fsErase fs src) d c) src rest).1.count true) = 0 :=
      run_renames_of_missing _ _ _ hgone
    simp [hrest]

/-- Witness for C2 at a concrete race: three workers move the same incoming
task towards different buckets; exactly one rename succeeds. -/
theorem c2_witness :
    ((run_renames [(("01_Incoming_Tasks", "t.md"), "X")] ("01_Incoming_Tasks", "t.md")
      [("04_Approval_Workflows", "t.md"), ("02_In_Progress_Tasks", "t.md"),
       ("02_In_Progress_Tasks", "t_1.md")]).1.count true) = 1 :=
  c2_exactly_one_claim_succeeds _ _ "X" _ (by decide) (by decide) (by decide)

/-- C1 counterexample: a task that requires approval is diverted to the
approval-workflows bucket by the first check of process_task even though
its retry_count has reached max_retries, so retry exhaustion does not
force Failed for every task. -/
theorem c1_counterexample :
    (max_retries : ℚ) ≤
      ygetQ [("approval", YVal.b true), ("retry_count", YVal.q 10)] "retry_count" 0 ∧
    process_task [("approval", YVal.b true), ("retry_count", YVal.q 10)] =
      "awaiting_approval" ∧
    process_task [("approval", YVal.b true), ("retry_count", YVal.q 10)] ≠ "failed" := by
  refine ⟨by decide, by decide, by decide⟩

/-- C1 amended: for every task that does not require approval, once
retry_count has reached max_retries the evaluation returns failed
regardless of confidence score or type, and the cycle records the move to
the failed-tasks bucket. -/
theorem c1_retry_ceiling (d : YDict)
    (happr : ygetTruthy d "approval" false = false)
    (hretry : (max_retries : ℚ) ≤ ygetQ d "retry_count" 0) :
    process_task d = "failed" ∧
    ((ygetStr d "status" "pending_review" = "pending_review" ∨
      ygetStr d "status" "pending_review" = "needs_action") →
      ralph_incoming_step d = .movedTo FAILED_TASKS_FOLDER none) := by
  have hfail : process_task d = "failed" := by
    unfold process_task
    rw [happr, if_neg (by simp), if_pos hretry]
  refine ⟨hfail, fun hst => ?_⟩
  unfold ralph_incoming_step
  rw [if_pos hst, hfail]
  decide

/-- Witness for C1 at a concrete exhausted task with no approval flag. -/
theorem c1_witness :
    process_task [("retry_count", YVal.q 10), ("status", YVal.s "pending_review")] =
      "failed" ∧
    ralph_incoming_step [("retry_count", YVal.q 10), ("status", YVal.s "pending_review")] =
      .movedTo FAILED_TASKS_FOLDER none := by
  have h := c1_retry_ceiling
    [("retry_count", YVal.q 10), ("status", YVal.s "pending_review")]
    (by decide) (by decide)
  exact ⟨h.1, h.2 (by decide)⟩

/-- C3 counterexample: an approved task whose recorded original_status is
pending_review is routed to the in-progress bucket with status
in_progress, not back to pending_review, because the cycle only
distinguishes completed from everything else. -/
theorem c3_counterexample :
    ralph_approval_step
      [("approved", YVal.b true), ("original_status", YVal.s "pending_review")] =
      .movedTo IN_PROGRESS_TASKS_FOLDER "in_progress" ∧
    ygetStr [("approved", YVal.b true), ("original_status", YVal.s "pending_review")]
      "original_status" "in_progress" ≠ "in_progress" := by
  refine ⟨by decide, by decide⟩

/-- C3 amended: after approval the next cycle routes the task to the
completed bucket exactly when its recorded original_status is completed,
and to the in-progress bucket with status in_progress in every other case
(including the default when no original_status was recorded); the status
re-stamp at the new location preserves the approved flag. -/
theorem c3_approval_routing (d : YDict) (v t : String)
    (happ : ygetTruthy d "approved" false = true) :
    (ygetStr d "original_status" "in_progress" = "completed" →
      ralph_approval_step d = .movedTo COMPLETED_TASKS_FOLDER "completed") ∧
    (ygetStr d "original_status" "in_progress" ≠ "completed" →
      ralph_approval_step d = .movedTo IN_PROGRESS_TASKS_FOLDER "in_progress") ∧
    yget (yset (yset d "status" (.s v)) "last_updated" (.s t)) "approved" =
      yget d "approved" := by
  refine ⟨fun h => ?_, fun h => ?_, ?_⟩
  · simp only [ralph_approval_step, happ, if_true, h, if_pos rfl]
  · simp only [ralph_approval_step, happ, if_true, if_neg h]
  · rw [yget_yset_ne _ _ _ _ (by decide), yget_yset_ne _ _ _ _ (by decide)]

/-- Witness for C3 at a concrete approved task gated from completed. -/
theorem c3_witness :
    ralph_approval_step
      [("approved", YVal.b true), ("original_status", YVal.s "completed")] =
      .movedTo COMPLETED_TASKS_FOLDER "completed" :=
  (c3_approval_routing _ "in_progress" "2025-01-01T00:00:00" (by decide)).1 (by decide)

/-- C4 counterexample: an approval request created at clock 0 carries
expires = 86400 seconds, yet both approval-processing loop bodies take no
clock at all; run at any time after expiry they leave the unapproved
request untouched, its status still pending rather than failed, and no
ledger entry is written. -/
theorem c4_counterexample :
    yget (create_approval_metadata "payment" "ap_001" 0) "expires" =
      some (YVal.q ((86400 : ℕ) : ℚ)) ∧
    ralph_approval_step (create_approval_metadata "payment" "ap_001" 0) =
      .noAction ∧
    tp_approval_step (create_approval_metadata "payment" "ap_001" 0) = .noAction ∧
    ygetStr (create_approval_metadata "payment" "ap_001" 0) "status" "" ≠ "failed" := by
  refine ⟨by decide, by decide, by decide, by decide⟩

/-- C4 amended: create_approval_request records expires = created + 24
hours and status pending, but no component enforces the deadline: for
every unapproved request, the approval-processing steps of both cycles
are the identity (they do not consult any clock), so an unactioned
request stays in AwaitingApproval indefinitely and no approval_timeout
ledger entry exists anywhere in the source. -/
theorem c4_no_expiry_enforcement (approvalType approvalId : String) (now : ℕ)
    (d : YDict) (h : ygetTruthy d "approved" false = false) :
    yget (create_approval_metadata approvalType approvalId now) "expires" =
      some (.q ((now + 24 * 3600 : ℕ) : ℚ)) ∧
    ygetStr (create_approval_metadata approvalType approvalId now) "status" "" =
      "pending" ∧
    ralph_approval_step d = .noAction ∧
    tp_approval_step d = .noAction := by
  refine ⟨?_, ?_, ?_, ?_⟩
  · simp [create_approval_metadata, yget]
  · simp [create_approval_metadata, ygetStr, yget]
  · simp [ralph_approval_step, h]
  · simp [tp_approval_step, h]

/-- Witness for C4 at the concrete expired request of the counterexample
shape, one second short of a day after some later clock. -/
theorem c4_witness :
    ralph_approval_step [("status", YVal.s "pending")] = ApprovalEffect.noAction :=
  (c4_no_expiry_enforcement "email_draft" "ap_002" 5 _ (by decide)).2.2.1

/-- C5: over the whole trust-score range [0, 1] the autonomy level is the
pure threshold function of the score: at least 0.85 gives level 4
(Self-direct), at least 0.7 but below 0.85 gives level 3 (Execute), at
least 0.5 but below 0.7 gives level 2 (Recommend), and below 0.5 gives
level 1 (Observe only). -/
theorem c5_autonomy_thresholds (ts : ℚ) (h0 : 0 ≤ ts) (h1 : ts ≤ 1) :
    (0.85 ≤ ts → get_autonomy_level ts = 4) ∧
    (0.7 ≤ ts ∧ ts < 0.85 → get_autonomy_level ts = 3) ∧
    (0.5 ≤ ts ∧ ts < 0.7 → get_autonomy_level ts = 2) ∧
    (ts < 0.5 → get_autonomy_level ts = 1) := by
  unfold get_autonomy_level
  refine ⟨fun h => ?_, fun h => ?_, fun h => ?_, fun h => ?_⟩ <;>
    split_ifs <;> first | rfl | linarith [h]

/-- Witness for C5 at score 0.9, which lands in the Self-direct band. -/
theorem c5_witness : get_autonomy_level 0.9 = 4 :=
  (c5_autonomy_thresholds 0.9 (by norm_num) (by norm_num)).1 (by norm_num)

/-- Clamping to [0, 1] followed by exponential smoothing with factor 0.3
against a prior in [0, 1] stays in [0, 1]. -/
theorem clamp_smooth_bounds (current x : ℚ) (h0 : 0 ≤ current) (h1 : current ≤ 1) :
    0 ≤ current * (1 - 0.3) + (max 0 (min 1 x)) * 0.3 ∧
    current * (1 - 0.3) + (max 0 (min 1 x)) * 0.3 ≤ 1 := by
  have hc0 : (0 : ℚ) ≤ max 0 (min 1 x) := le_max_left 0 _
  have hc1 : max 0 (min 1 x) ≤ 1 := max_le (by norm_num) (min_le_left 1 x)
  constructor <;> nlinarith [hc0, hc1, h0, h1]

/-- C6: one trust-score update from a prior score in [0, 1] stays in
[0, 1] for every combination of completed, failed, approval and retry
statistics, because the weighted combination is clamped to the configured
bounds before the exponential smoothing; and each rate computation has a
defined default on zero observed data (0.8 success rate, 1.0 approval
rate, 0.1 retry frequency) instead of dividing by zero. -/
theorem c6_trust_score_bounded (current : ℚ) (completedCount failedCount : ℕ)
    (approvalFiles : List Bool) (totalRetryAttempts taskCount : ℕ)
    (h0 : 0 ≤ current) (h1 : current ≤ 1) :
    (0 ≤ update_trust_score current completedCount failedCount approvalFiles
        totalRetryAttempts taskCount ∧
     update_trust_score current completedCount failedCount approvalFiles
        totalRetryAttempts taskCount ≤ 1) ∧
    calculate_task_success_rate 0 0 = 0.8 ∧
    calculate_approval_success_rate [] = 1.0 ∧
    (∀ attempts, calculate_retry_frequency attempts 0 = 0.1) := by
  refine ⟨?_, by norm_num [calculate_task_success_rate],
    by norm_num [calculate_approval_success_rate],
    fun attempts => by norm_num [calculate_retry_frequency]⟩
  exact clamp_smooth_bounds current
    (calculate_task_success_rate completedCount failedCount * 0.5 +
     calculate_approval_success_rate approvalFiles * 0.2 +
     (1.0 - calculate_retry_frequency totalRetryAttempts taskCount) * 0.3) h0 h1

/-- Witness for C6 at a concrete prior score and concrete statistics. -/
theorem c6_witness :
    (0 ≤ update_trust_score 0.7 9 1 [true, false] 3 2 ∧
     update_trust_score 0.7 9 1 [true, false] 3 2 ≤ 1) ∧
    calculate_task_success_rate 0 0 = 0.8 ∧
    calculate_approval_success_rate [] = 1.0 ∧
    (∀ attempts, calculate_retry_frequency attempts 0 = 0.1) :=
  c6_trust_score_bounded 0.7 9 1 [true, false] 3 2 (by norm_num) (by norm_num)

/-- C7 counterexample: a high-or-critical-priority email task with risk
factor above 0.5 is routed to pending_review by process_task even with
confidence 0.9 and no approval requirement, so a single cycle does not
move every such task from Pending to Completed. -/
theorem c7_counterexample :
    ygetQ [("type", YVal.s "email"), ("priority", YVal.s "high"),
      ("risk_factor", YVal.q 0.6), ("confidence_score", YVal.q 0.9),
      ("status", YVal.s "pending_review")] "confidence_score" 0.5 = 0.9 ∧
    ygetTruthy [("type", YVal.s "email"), ("priority", YVal.s "high"),
      ("risk_factor", YVal.q 0.6), ("confidence_score", YVal.q 0.9),
      ("status", YVal.s "pending_review")] "approval" false = false ∧
    process_task [("type", YVal.s "email"), ("priority", YVal.s "high"),
      ("risk_factor", YVal.q 0.6), ("confidence_score", YVal.q 0.9),
      ("status", YVal.s "pending_review")] = "pending_review" ∧
    ralph_incoming_step [("type", YVal.s "email"), ("priority", YVal.s "high"),
      ("risk_factor", YVal.q 0.6), ("confidence_score", YVal.q 0.9),
      ("status", YVal.s "pending_review")] ≠
      .movedTo COMPLETED_TASKS_FOLDER (some "completed") := by
  refine ⟨by simp [ygetQ, yget], by decide, ?_, ?_⟩
  · simp [process_task, ygetTruthy, ygetQ, ygetStr, yget, max_retries,
      YVal.truthy]
    norm_num
  · simp [ralph_incoming_step, process_task, ygetTruthy, ygetQ, ygetStr,
      yget, max_retries, YVal.truthy]
    norm_num
    simp

/-- C7 amended: a Pending task with confidence 0.9, no approval
requirement, retries remaining, and not of the email type with high or
critical priority, is decided completed and moved to the completed bucket
with status completed in the same cycle. -/
theorem c7_high_confidence_completes (d : YDict)
    (happr : ygetTruthy d "approval" false = false)
    (hretry : ygetQ d "retry_count" 0 < (max_retries : ℚ))
    (hconf : ygetQ d "confidence_score" 0.5 = 0.9)
    (hmail : ¬(ygetStr d "type" "generic" = "email" ∧
        (ygetStr d "priority" "normal" = "high" ∨
         ygetStr d "priority" "normal" = "critical")))
    (hst : ygetStr d "status" "pending_review" = "pending_review" ∨
           ygetStr d "status" "pending_review" = "needs_action") :
    process_task d = "completed" ∧
    ralph_incoming_step d = .movedTo COMPLETED_TASKS_FOLDER (some "completed") := by
  have hdec : process_task d = "completed" := by
    unfold process_task
    rw [happr, if_neg (by simp), if_neg (not_le.mpr hretry)]
    by_cases ht : ygetStr d "type" "generic" = "file_arrival"
    · rw [if_pos ht, if_pos (by rw [hconf]; norm_num)]
    · rw [if_neg ht]
      by_cases he : ygetStr d "type" "generic" = "email"
      · have hp : ¬(ygetStr d "priority" "normal" = "high" ∨
            ygetStr d "priority" "normal" = "critical") := fun hp => hmail ⟨he, hp⟩
        rw [if_pos he, if_neg hp, if_pos (by rw [hconf]; norm_num)]
      · rw [if_neg he, if_pos (by rw [hconf]; norm_num)]
  refine ⟨hdec, ?_⟩
  unfold ralph_incoming_step
  rw [if_pos hst, hdec]
  decide

/-- Witness for C7 at a concrete generic task with confidence 0.9. -/
theorem c7_witness :
    process_task [("confidence_score", YVal.q 0.9),
      ("status", YVal.s "pending_review")] = "completed" ∧
    ralph_incoming_step [("confidence_score", YVal.q 0.9),
      ("status", YVal.s "pending_review")] =
      .movedTo COMPLETED_TASKS_FOLDER (some "completed") :=
  c7_high_confidence_completes _ (by decide)
    (by simp [ygetQ, yget, max_retries])
    (by simp [ygetQ, yget])
    (by decide) (by decide)

/-- C8 counterexample: a record whose YAML block fails to load (the loader
raises, modelled by the always-failing loader) parses to the empty
metadata dictionary; process_incoming_tasks then reads status unknown and
leaves the file in the incoming folder, and the ralph cycle falls back to
the default status pending_review and re-marks the task pending_review —
in neither pipeline is the task quarantined into the failed bucket. -/
theorem c8_counterexample :
    parse_yaml_frontmatter (fun _ => none) "---\nstatus: : bad\n---\nbody" =
      ([], "---\nstatus: : bad\n---\nbody") ∧
    tp_incoming_step_content (fun _ => none) "---\nstatus: : bad\n---\nbody" =
      .leftUnknown ∧
    ralph_incoming_step [] = .statusSet "pending_review" ∧
    ralph_incoming_step [] ≠ .movedTo FAILED_TASKS_FOLDER none := by
  refine ⟨by decide, by decide, ?_, ?_⟩
  · simp [ralph_incoming_step, process_task, ygetTruthy, ygetQ, ygetStr,
      yget, max_retries, YVal.truthy]
    norm_num
    simp
  · simp [ralph_incoming_step, process_task, ygetTruthy, ygetQ, ygetStr,
      yget, max_retries, YVal.truthy]
    norm_num
    simp

/-- C8 amended: a task record with unparseable frontmatter is not
quarantined: parsing yields the empty metadata dictionary, readers fall
back to defaults (status unknown in get_task_status, pending_review in
the ralph cycle), task_processor leaves the file in the incoming folder,
and the ralph cycle re-marks it pending_review in place — it is never
moved to the failed bucket and no malformed_record reason exists. -/
theorem c8_malformed_not_quarantined (yamlLoad : String → Option YDict)
    (content : String)
    (h : (parse_yaml_frontmatter yamlLoad content).1 = []) :
    get_task_status yamlLoad content = "unknown" ∧
    tp_incoming_step_content yamlLoad content = .leftUnknown ∧
    ralph_incoming_step (parse_yaml_frontmatter yamlLoad content).1 =
      .statusSet "pending_review" := by
  have hstatus : get_task_status yamlLoad content = "unknown" := by
    unfold get_task_status
    rw [h]
    rfl
  have happroval : get_task_approval_status yamlLoad content = false := by
    unfold get_task_approval_status
    rw [h]
    rfl
  refine ⟨hstatus, ?_, ?_⟩
  · unfold tp_incoming_step_content
    rw [hstatus, happroval]
    decide
  · rw [h]
    simp [ralph_incoming_step, process_task, ygetTruthy, ygetQ, ygetStr,
      yget, max_retries, YVal.truthy]
    norm_num
    simp

/-- Witness for C8 at a record with no frontmatter block at all. -/
theorem c8_witness :
    get_task_status (fun _ => none) "plain note with no header" = "unknown" ∧
    tp_incoming_step_content (fun _ => none) "plain note with no header" =
      .leftUnknown ∧
    ralph_incoming_step
      (parse_yaml_frontmatter (fun _ => none) "plain note with no header").1 =
      .statusSet "pending_review" :=
  c8_malformed_not_quarantined (fun _ => none) "plain note with no header"
    (by decide)

/-- C9: when a task file contains no parseable YAML frontmatter, the
status-update operation of task_processor returns False and performs no
write — the file system is exactly as before — and the metadata-update
operation of the ralph loop likewise declines every update set. -/
theorem c9_no_write_on_unparseable (yamlLoad : String → Option YDict)
    (yamlDump : YDict → String) (nowStr : String) (fs : FileSys) (p : FPath)
    (content newStatus : String)
    (hfile : fsLookup fs p = some content)
    (h : (parse_yaml_frontmatter yamlLoad content).1 = []) :
    update_task_status yamlLoad yamlDump nowStr content newStatus = none ∧
    update_task_status_fs yamlLoad yamlDump nowStr fs p newStatus = (false, fs) ∧
    (∀ updates, update_task_metadata yamlLoad yamlDump nowStr content updates =
      none) := by
  have h1 : update_task_status yamlLoad yamlDump nowStr content newStatus = none := by
    unfold update_task_status
    rw [if_pos h]
  refine ⟨h1, ?_, fun updates => ?_⟩
  · unfold update_task_status_fs
    rw [hfile]
    simp only [h1]
  · unfold update_task_metadata
    rw [if_pos h]

/-- Witness for C9 at a concrete headerless file. -/
theorem c9_witness :
    update_task_status (fun _ => none) (fun _ => "") "t" "no header here" "completed" =
      none ∧
    update_task_status_fs (fun _ => none) (fun _ => "") "t"
      [(("01_Incoming_Tasks", "t.md"), "no header here")]
      ("01_Incoming_Tasks", "t.md") "completed" =
      (false, [(("01_Incoming_Tasks", "t.md"), "no header here")]) ∧
    (∀ updates, update_task_metadata (fun _ => none) (fun _ => "") "t"
      "no header here" updates = none) :=
  c9_no_write_on_unparseable (fun _ => none) (fun _ => "") "t" _ _ _ "completed"
    (by decide) (by decide)

/-- C10 counterexample: the retargeted timestamped name is not checked for
freshness; when the destination bucket already holds both t.md and the
file named with the current timestamp, the move succeeds and silently
replaces the pre-existing timestamped file (Path.rename overwrite), so the
move is not overwrite-free in general. -/
theorem c10_counterexample :
    fsLookup [(("02_In_Progress_Tasks", "t.md"), "A"),
      (("03_Completed_Tasks", "t.md"), "B"),
      (("03_Completed_Tasks", "t_7.md"), "C")] ("03_Completed_Tasks", "t_7.md") =
      some "C" ∧
    (move_task_to_folder 7 [(("02_In_Progress_Tasks", "t.md"), "A"),
      (("03_Completed_Tasks", "t.md"), "B"),
      (("03_Completed_Tasks", "t_7.md"), "C")]
      ("02_In_Progress_Tasks", "t.md") "03_Completed_Tasks").1 = true ∧
    fsLookup (move_task_to_folder 7 [(("02_In_Progress_Tasks", "t.md"), "A"),
      (("03_Completed_Tasks", "t.md"), "B"),
      (("03_Completed_Tasks", "t_7.md"), "C")]
      ("02_In_Progress_Tasks", "t.md") "03_Completed_Tasks").2
      ("03_Completed_Tasks", "t_7.md") = some "A" ∧
    fsLookup (move_task_to_folder 7 [(("02_In_Progress_Tasks", "t.md"), "A"),
      (("03_Completed_Tasks", "t.md"), "B"),
      (("03_Completed_Tasks", "t_7.md"), "C")]
      ("02_In_Progress_Tasks", "t.md") "03_Completed_Tasks").2
      ("03_Completed_Tasks", "t_7.md") ≠ some "C" := by
  refine ⟨by decide, by decide, by decide, by decide⟩

/-- C10 amended: when the destination bucket already holds a file of the
same name, the move retargets to the stem + timestamp + suffix name;
provided no file with that timestamped name already exists there, the move
succeeds, the pre-existing same-named file keeps its content, the moved
content appears under the timestamped name, and the source is gone. -/
theorem c10_move_no_overwrite (now : ℕ) (fs : FileSys)
    (srcFolder destFolder name a b tsn : String)
    (htsn : tsn = (splitStemSuffix name).1 ++ "_" ++ toString now ++
      (splitStemSuffix name).2)
    (hfolder : destFolder ≠ srcFolder)
    (hsrc : fsLookup fs (srcFolder, name) = some a)
    (hdest : fsLookup fs (destFolder, name) = some b)
    (hfresh : fsLookup fs (destFolder, tsn) = none) :
    (move_task_to_folder now fs (srcFolder, name) destFolder).1 = true ∧
    fsLookup (move_task_to_folder now fs (srcFolder, name) destFolder).2
      (destFolder, name) = some b ∧
    fsLookup (move_task_to_folder now fs (srcFolder, name) destFolder).2
      (destFolder, tsn) = some a ∧
    fsLookup (move_task_to_folder now fs (srcFolder, name) destFolder).2
      (srcFolder, name) = none := by
  have hmove : move_task_to_folder now fs (srcFolder, name) destFolder =
      (true, fsWrite (fsErase fs (srcFolder, name)) (destFolder, tsn) a) := by
    unfold move_task_to_folder
    rw [htsn]
    simp only [hdest, Option.isSome_some, if_true]
    unfold fsRename
    rw [hsrc]
  have hne1 : ((destFolder, name) : FPath) ≠ (destFolder, tsn) := by
    intro hEq
    have hnm : name = tsn := congrArg Prod.snd hEq
    rw [← hnm] at hfresh
    rw [hdest] at hfresh
    exact Option.noConfusion hfresh
  have hne2 : ((srcFolder, name) : FPath) ≠ (destFolder, tsn) :=
    fun hEq => hfolder (congrArg Prod.fst hEq).symm
  have hne3 : ((destFolder, name) : FPath) ≠ (srcFolder, name) :=
    fun hEq => hfolder (congrArg Prod.fst hEq)
  refine ⟨by rw [hmove], ?_, ?_, ?_⟩
  · rw [hmove]
    rw [fsLookup_fsWrite_ne _ _ _ _ hne1, fsLookup_fsErase_ne _ _ _ hne3]
    exact hdest
  · rw [hmove]
    exact fsLookup_fsWrite_self _ _ _
  · rw [hmove]
    rw [fsLookup_fsWrite_ne _ _ _ _ hne2]
    exact fsLookup_fsErase_self _ _

/-- Witness for C10 at a concrete collision-free destination. -/
theorem c10_witness :
    (move_task_to_folder 7 [(("02_In_Progress_Tasks", "t.md"), "A"),
      (("03_Completed_Tasks", "t.md"), "B")]
      ("02_In_Progress_Tasks", "t.md") "03_Completed_Tasks").1 = true ∧
    fsLookup (move_task_to_folder 7 [(("02_In_Progress_Tasks", "t.md"), "A"),
      (("03_Completed_Tasks", "t.md"), "B")]
      ("02_In_Progress_Tasks", "t.md") "03_Completed_Tasks").2
      ("03_Completed_Tasks", "t.md") = some "B" ∧
    fsLookup (move_task_to_folder 7 [(("02_In_Progress_Tasks", "t.md"), "A"),
      (("03_Completed_Tasks", "t.md"), "B")]
      ("02_In_Progress_Tasks", "t.md") "03_Completed_Tasks").2
      ("03_Completed_Tasks", "t_7.md") = some "A" ∧
    fsLookup (move_task_to_folder 7 [(("02_In_Progress_Tasks", "t.md"), "A"),
      (("03_Completed_Tasks", "t.md"), "B")]
      ("02_In_Progress_Tasks", "t.md") "03_Completed_Tasks").2
      ("02_In_Progress_Tasks", "t.md") = none :=
  c10_move_no_overwrite 7 _ "02_In_Progress_Tasks" "03_Completed_Tasks" "t.md"
    "A" "B" "t_7.md" (by decide) (by decide) (by decide) (by decide) (by decide)
